import Mathlib

/-!
Verification of the FastAPI shim in `app/tarsier_endpoint.py`.

The shim exposes `POST /generate` and `GET /health`.  We give a shallow
embedding: outcomes of the external world (network, generation library)
are oracle values, the module-level model/processor handles are a state
record, and each handler is a pure function from state, request and oracle
to a response together with a trace of observable effects (download
attempts, temporary-file creations and deletions, generation calls) and a
final filesystem of temporary files.

Exception semantics of the source are modelled faithfully.  In particular,
`fastapi.HTTPException` is a subclass of `Exception`, so an
`HTTPException(400, ...)` raised inside the `try:` block of `generate`
(lines 77-143) is caught by the blanket `except Exception` at line 144 and
re-raised as `HTTPException(500, str(e))`; the `str` of a Starlette
`HTTPException` is `"{status_code}: {detail}"` rendered with its status
code and detail.  Only the 503 readiness check (lines 74-75) is raised
before the `try:` and thus reaches the client unchanged.
-/

namespace Tarsier

/-- One parameter tensor of the loaded model; only its device string is
observable (line 152: `next(model_state.model.parameters()).device`). -/
structure Param where
  device : String
deriving DecidableEq, Repr

/-- The loaded model handle.  A real torch module owns at least one
parameter, so `next(model.parameters())` is total; we record the
parameter list together with a nonemptiness proof. -/
structure Model where
  params : List Param
  params_ne : params ≠ []

/-- The loaded processor handle (opaque to the shim). -/
structure Processor where
  tag : String
deriving DecidableEq, Repr

/-- Module-level `ModelState` (lines 23-29): optional model and processor
handles, both `None` until startup completes. -/
structure ModelState where
  model : Option Model
  processor : Option Processor

/-- Request body of `POST /generate` (lines 31-37), with the pydantic
defaults.  `temperature` and `top_p` are passed through unchanged, so we
carry them as rationals; `video_url` is the URL string when present. -/
structure GenerateRequest where
  instruction : String
  max_new_tokens : Int := 512
  do_sample : Bool := false
  temperature : Rat := 0
  top_p : Rat := 1
  video_url : Option String := none
deriving DecidableEq, Repr

/-- The `generate_kwargs` record assembled at lines 79-85. -/
structure GenerateKwargs where
  do_sample : Bool
  max_new_tokens : Int
  top_p : Rat
  temperature : Rat
  use_cache : Bool
deriving DecidableEq, Repr

/-- Outcome of the streamed `requests.get` performed by `download_video`
for one URL, as seen by the shim:
* `connError`: `requests.get` itself raises (connection failure);
* `httpError`: the response status is non-2xx, so `raise_for_status`
  raises (carrying the given message);
* `streamError`: the temporary file has been created and `written` bytes
  stored when iterating the body raises;
* `ok`: the body arrives as chunks of the given sizes. -/
inductive NetOutcome where
  | connError (msg : String)
  | httpError (code : Nat) (msg : String)
  | streamError (written : Nat) (msg : String)
  | ok (chunks : List Nat)
deriving DecidableEq, Repr

/-- A Python exception as far as the shim distinguishes them: a
`fastapi.HTTPException` with status code and detail, or any other
exception carrying a message. -/
inductive Exn where
  | http (code : Nat) (detail : String)
  | other (msg : String)
deriving DecidableEq, Repr

/-- The string Python produces for an exception: Starlette renders an
`HTTPException` as `"{status_code}: {detail}"` with its fields, any other
exception as its message. -/
def Exn.str : Exn → String
  | .http c d => toString c ++ ": " ++ d
  | .other m => m

/-- Per-request oracle: the network outcome for the (at most one) download,
the unique temporary-file name `tempfile.NamedTemporaryFile` allocates,
and the outcome of the external `process_one` call (generated text, or the
message of the exception it raises). -/
structure World where
  net : NetOutcome
  tmpName : String
  gen : Except String String

/-- Observable effects of one request. -/
inductive Effect where
  | downloadAttempt (url : String)
  | fileCreated (path : String) (size : Nat)
  | fileDeleted (path : String)
  | genCall (prompt : String) (video_file : Option String) (kwargs : GenerateKwargs)
deriving DecidableEq, Repr

/-- The filesystem of temporary files: paths with their sizes. -/
abbrev FS := List (String × Nat)

/-- Membership test backing `os.path.exists` (line 94). -/
def fsContains (fs : FS) (p : String) : Bool :=
  fs.any (fun e => e.1 = p)

/-- File size lookup backing `os.path.getsize` (line 96). -/
def getsize (fs : FS) (p : String) : Nat :=
  ((fs.find? (fun e => e.1 = p)).map (fun e => e.2)).getD 0

/-- Deletion backing `os.unlink` (line 124). -/
def unlink (fs : FS) (p : String) : FS :=
  fs.filter (fun e => e.1 ≠ p)

/-- Response body: the success JSON `{generated_text, status}` of lines
140-143, or the `{detail}` body FastAPI renders for an `HTTPException`. -/
inductive Body where
  | json (generated_text : String) (status : String)
  | detail (msg : String)
deriving DecidableEq, Repr

/-- An HTTP response: status code and body. -/
structure Response where
  status : Nat
  body : Body
deriving DecidableEq, Repr

/-- Left-to-right removal of every occurrence of `pat` from `s`, with
enough fuel; mirrors Python `s.replace(pat, "")`, which scans from the
left and resumes after each removed occurrence. -/
def removeAllAux (pat : List Char) : Nat → List Char → List Char
  | _, [] => []
  | 0, s => s
  | fuel + 1, c :: rest =>
      if pat.isPrefixOf (c :: rest) then
        removeAllAux pat fuel ((c :: rest).drop pat.length)
      else
        c :: removeAllAux pat fuel rest

/-- Python `s.replace(pat, "")` on character lists. -/
def removeAll (pat s : List Char) : List Char :=
  removeAllAux pat s.length s

/-- Python `s.replace(pat, "")` on strings. -/
def pyRemove (s pat : String) : String :=
  String.mk (removeAll pat.data s.data)

/-- The prompt built at line 105 for the video branch:
`"<video>\n" + request.instruction.replace("<image>", "").replace("<video>", "")`. -/
def videoPrompt (instruction : String) : String :=
  "<video>\n" ++ pyRemove (pyRemove instruction "<image>") "<video>"

/-- Embeds `download_video` (lines 39-54).  Given the network outcome and
the fresh temporary name, returns the raised exception or the returned
path, the filesystem after the call, and the effects performed.  Any
failure inside the body is caught at line 53 and re-raised as
`HTTPException(400, "Failed to download video: " + str(e))`.  On a
mid-stream failure the temporary file has already been created (line 48,
`delete=False`) and is not removed by this function. -/
def download_video (net : NetOutcome) (tmpName : String) (fs : FS) :
    Except Exn String × FS × List Effect :=
  match net with
  | .connError m =>
      (.error (.http 400 ("Failed to download video: " ++ m)), fs, [])
  | .httpError _ m =>
      (.error (.http 400 ("Failed to download video: " ++ m)), fs, [])
  | .streamError written m =>
      (.error (.http 400 ("Failed to download video: " ++ m)),
       fs ++ [(tmpName, written)], [.fileCreated tmpName written])
  | .ok chunks =>
      (.ok tmpName, fs ++ [(tmpName, chunks.sum)],
       [.fileCreated tmpName chunks.sum])

/-- Embeds the `POST /generate` handler (lines 72-145).  Returns the HTTP
response, the final filesystem and the effect trace.

Control flow of the source, reproduced here:
* lines 74-75: 503 raised before the `try:`, so it reaches the client;
* lines 79-85: `generate_kwargs` assembled from the request plus
  `use_cache = True`;
* video branch (88-124): download; on download failure the
  `HTTPException(400, ...)` propagates to the catch-all at line 144 and is
  re-raised as a 500.  On success, a `try/finally` guards validation and
  generation; the 400s of lines 95 and 100 and the 500 of line 120 all
  cross the `finally` (which unlinks the file) and are then re-wrapped as
  500 by line 145.  A successful call returns 200;
* text branch (125-138): same generation call with `video_file=None` and
  the raw instruction as prompt. -/
def generate (st : ModelState) (req : GenerateRequest) (w : World) (fs : FS) :
    Response × FS × List Effect :=
  if st.model.isNone || st.processor.isNone then
    ({ status := 503, body := .detail "Model not loaded" }, fs, [])
  else
    let generate_kwargs : GenerateKwargs :=
      { do_sample := req.do_sample
        max_new_tokens := req.max_new_tokens
        top_p := req.top_p
        temperature := req.temperature
        use_cache := true }
    match req.video_url with
    | some url =>
      match download_video w.net w.tmpName fs with
      | (.error e, fs1, effs) =>
          ({ status := 500, body := .detail e.str }, fs1,
           .downloadAttempt url :: effs)
      | (.ok video_path, fs1, effs) =>
          let effs := .downloadAttempt url :: effs
          if !fsContains fs1 video_path then
            ({ status := 500, body := .detail (Exn.str (.http 400 "Video file not created")) },
             unlink fs1 video_path, effs ++ [.fileDeleted video_path])
          else if getsize fs1 video_path = 0 then
            ({ status := 500, body := .detail (Exn.str (.http 400 "Video file is empty")) },
             unlink fs1 video_path, effs ++ [.fileDeleted video_path])
          else
            let prompt := videoPrompt req.instruction
            let effs := effs ++ [.genCall prompt (some video_path) generate_kwargs]
            match w.gen with
            | .ok text =>
                ({ status := 200, body := .json text "success" },
                 unlink fs1 video_path, effs ++ [.fileDeleted video_path])
            | .error m =>
                ({ status := 500, body := .detail (Exn.str (.http 500 m)) },
                 unlink fs1 video_path, effs ++ [.fileDeleted video_path])
    | none =>
      let prompt := req.instruction
      match w.gen with
      | .ok text =>
          ({ status := 200, body := .json text "success" }, fs,
           [.genCall prompt none generate_kwargs])
      | .error m =>
          ({ status := 500, body := .detail (Exn.str (.http 500 m)) }, fs,
           [.genCall prompt none generate_kwargs])

/-- Response of `GET /health`. -/
structure HealthResponse where
  httpStatus : Nat
  status : String
  model_loaded : Bool
  device : String
deriving DecidableEq, Repr

/-- Device of the first parameter tensor:
`str(next(model.parameters()).device)` (line 152). -/
def Model.firstDevice (m : Model) : String :=
  (m.params.head m.params_ne).device

/-- Embeds the `GET /health` handler (lines 147-153). -/
def health_check (st : ModelState) : HealthResponse :=
  { httpStatus := 200
    status := "healthy"
    model_loaded := st.model.isSome
    device :=
      match st.model with
      | some m => m.firstDevice
      | none => "not loaded" }

/-- One `GET /health` call: it reads the session and performs no write, so
the state it hands to the next request is unchanged. -/
def health_call (st : ModelState) : HealthResponse × ModelState :=
  (health_check st, st)

/-- Paths of the `fileCreated` effects of a trace. -/
def createdPaths (t : List Effect) : List String :=
  t.filterMap fun e =>
    match e with
    | .fileCreated p _ => some p
    | _ => none

/-- Paths of the `fileDeleted` effects of a trace. -/
def deletedPaths (t : List Effect) : List String :=
  t.filterMap fun e =>
    match e with
    | .fileDeleted p => some p
    | _ => none

/-- URLs of the `downloadAttempt` effects of a trace. -/
def downloadAttempts (t : List Effect) : List String :=
  t.filterMap fun e =>
    match e with
    | .downloadAttempt u => some u
    | _ => none

/-- Generation calls of a trace: prompt, video file, kwargs. -/
def genCalls (t : List Effect) : List (String × Option String × GenerateKwargs) :=
  t.filterMap fun e =>
    match e with
    | .genCall p v k => some (p, v, k)
    | _ => none

end Tarsier

namespace Tarsier

/-! Concrete fixtures used to instantiate the theorems. -/

/-- A loaded model whose single parameter lives on device `cuda:0`. -/
def cudaModel : Model := ⟨[⟨"cuda:0"⟩], by simp⟩

/-- A loaded processor handle. -/
def proc : Processor := ⟨"processor"⟩

/-- Session state after a successful startup. -/
def loadedState : ModelState := ⟨some cudaModel, some proc⟩

/-- A video request whose instruction carries no marker. -/
def reqVid : GenerateRequest :=
  { instruction := "What happens?", video_url := some "http://x/y.mp4" }

/-- The video request of the C2 scenario, with an embedded marker. -/
def reqVidMarked : GenerateRequest :=
  { instruction := "<video>\nWhat happens?", video_url := some "http://x/y.mp4" }

/-- World where the video URL answers 404. -/
def w404 : World :=
  ⟨.httpError 404 "404 Client Error: Not Found for url: http://x/y.mp4",
   "/tmp/tmpabc123.mp4", .ok "unused"⟩

/-- World where the stream breaks after 5 bytes were written. -/
def wStream : World :=
  ⟨.streamError 5 "Connection broken", "/tmp/tmpabc123.mp4", .ok "unused"⟩

/-- World where the download succeeds with 7 bytes and generation succeeds. -/
def wOk : World :=
  ⟨.ok [3, 4], "/tmp/tmpabc123.mp4", .ok "The video shows a cat."⟩

/-- World for text-only requests with successful generation. -/
def wTextOk : World := ⟨.ok [], "/tmp/unused", .ok "out"⟩

/-- After `unlink fs p`, the path `p` is no longer present. -/
theorem fsContains_unlink (fs : FS) (p : String) :
    fsContains (unlink fs p) p = false := by
  rw [fsContains, List.any_eq_false]
  intro e he
  rw [unlink, List.mem_filter] at he
  simpa using he.2

end Tarsier

namespace Tarsier

/-- C1 (code divergence): a `/generate` request whose video URL answers
HTTP 404 is answered with status 500, not the 400 the claim states.  The
`HTTPException(400, ...)` raised by `download_video` is caught by the
blanket `except Exception` of the handler (line 144) and re-raised as
`HTTPException(500, str(e))`, so the client sees a 500 whose detail still
carries the human-readable download message. -/
theorem C1_download_404_yields_500 :
    (generate loadedState reqVid w404 []).1 =
      { status := 500,
        body := .detail
          "400: Failed to download video: 404 Client Error: Not Found for url: http://x/y.mp4" } ∧
    (generate loadedState reqVid w404 []).1.status ≠ 400 := by
  constructor
  · rfl
  · decide

/-- C2 (counterexample): for the instruction of the scenario,
`"<video>\nWhat happens?"`, the prompt forwarded to the generation call is
`"<video>\n\nWhat happens?"` (the embedded marker is removed, leaving its
trailing newline, and the fixed prefix is prepended), not the
`"<video>\nWhat happens?"` the claim states. -/
theorem C2_marked_instruction_prompt_differs :
    (genCalls (generate loadedState reqVidMarked wOk []).2.2).map (fun c => c.1) =
      ["<video>\n\nWhat happens?"] ∧
    ("<video>\n\nWhat happens?" : String) ≠ "<video>\nWhat happens?" := by
  constructor
  · rfl
  · decide

/-- C3 (counterexample): when the download stream breaks after the
temporary file has been created, the request creates exactly one temporary
file, answers 500, and the file still exists once the response is
produced: the cleanup only guards the region after `download_video`
returned a path, so this creation path has no matching deletion. -/
theorem C3_stream_failure_leaves_file :
    createdPaths (generate loadedState reqVid wStream []).2.2 = ["/tmp/tmpabc123.mp4"] ∧
    fsContains (generate loadedState reqVid wStream []).2.1 "/tmp/tmpabc123.mp4" = true ∧
    (generate loadedState reqVid wStream []).1.status = 500 := by
  refine ⟨rfl, ?_, rfl⟩
  decide

/-- C8: `GET /health` always answers 200 with status marker `healthy`,
reports whether the session holds a model, and reports the device of the
first parameter of the model when one is loaded, the sentinel string
`not loaded` otherwise. -/
theorem C8_health_contract (st : ModelState) :
    (health_check st).httpStatus = 200 ∧
    (health_check st).status = "healthy" ∧
    (health_check st).model_loaded = st.model.isSome ∧
    (st.model = none → (health_check st).device = "not loaded") ∧
    (∀ m : Model, st.model = some m → (health_check st).device = m.firstDevice) := by
  rcases st with ⟨mo, po⟩
  cases mo with
  | none => simp [health_check]
  | some m =>
      refine ⟨rfl, rfl, rfl, by simp, ?_⟩
      intro m' hm'
      simp only at hm'
      cases hm'
      rfl

/-- Witness for C8 at the unloaded session. -/
theorem C8_health_contract_witness :
    (health_check ⟨none, none⟩).httpStatus = 200 ∧
    (health_check ⟨none, none⟩).model_loaded = false ∧
    (health_check ⟨none, none⟩).device = "not loaded" :=
  ⟨(C8_health_contract ⟨none, none⟩).1,
   (C8_health_contract ⟨none, none⟩).2.2.1,
   (C8_health_contract ⟨none, none⟩).2.2.2.1 rfl⟩

/-- C9: `GET /health` performs no write to the session, so two
consecutive calls with no intervening state change return identical
output. -/
theorem C9_health_idempotent (st : ModelState) :
    (health_call st).1 = (health_call (health_call st).2).1 := rfl

end Tarsier

namespace Tarsier

/-- C4: a `/generate` request received while the session holds no model or
no processor is answered 503 immediately, with no effect performed: no
download attempt, no file creation, no generation call, and an unchanged
filesystem. -/
theorem C4_not_loaded_503_no_effects (st : ModelState) (req : GenerateRequest)
    (w : World) (fs : FS) (h : st.model = none ∨ st.processor = none) :
    (generate st req w fs).1 = { status := 503, body := .detail "Model not loaded" } ∧
    (generate st req w fs).2.2 = [] ∧
    (generate st req w fs).2.1 = fs := by
  rcases st with ⟨mo, po⟩
  have hc : (mo.isNone || po.isNone) = true := by
    rcases h with h | h <;> simp_all
  simp [generate, hc]

/-- Witness for C4: an unloaded session answers 503 with no effects. -/
theorem C4_not_loaded_503_no_effects_witness :
    (generate ⟨none, none⟩ { instruction := "hi" } wTextOk []).1 =
      { status := 503, body := .detail "Model not loaded" } ∧
    (generate ⟨none, none⟩ { instruction := "hi" } wTextOk []).2.2 = [] ∧
    (generate ⟨none, none⟩ { instruction := "hi" } wTextOk []).2.1 = [] :=
  C4_not_loaded_503_no_effects ⟨none, none⟩ { instruction := "hi" } wTextOk [] (Or.inl rfl)

/-- C5: a text-only request against a loaded session whose generation call
returns text is answered 200 with body `generated_text` and status marker
`success`, and the one generation call receives the raw instruction as
prompt, no video file, and the assembled kwargs. -/
theorem C5_text_only_success (st : ModelState) (req : GenerateRequest)
    (w : World) (fs : FS) (m : Model) (p : Processor) (text : String)
    (hm : st.model = some m) (hp : st.processor = some p)
    (hv : req.video_url = none) (hg : w.gen = .ok text) :
    (generate st req w fs).1 = { status := 200, body := .json text "success" } ∧
    (generate st req w fs).2.2 =
      [.genCall req.instruction none
        { do_sample := req.do_sample, max_new_tokens := req.max_new_tokens,
          top_p := req.top_p, temperature := req.temperature, use_cache := true }] := by
  rcases st with ⟨mo, po⟩
  rcases w with ⟨net, tmp, gen⟩
  simp only at hm hp hg
  subst hm hp hg
  simp [generate, hv]

/-- Witness for C5 at a concrete text-only request. -/
theorem C5_text_only_success_witness :
    (generate loadedState { instruction := "Describe this." } wTextOk []).1 =
      { status := 200, body := .json "out" "success" } ∧
    (generate loadedState { instruction := "Describe this." } wTextOk []).2.2 =
      [.genCall "Describe this." none
        { do_sample := false, max_new_tokens := 512, top_p := 1,
          temperature := 0, use_cache := true }] :=
  C5_text_only_success loadedState { instruction := "Describe this." } wTextOk []
    cudaModel proc "out" rfl rfl rfl rfl

/-- C6: a request without a video URL creates no temporary file, attempts
no download, and leaves the filesystem unchanged, whatever the session
state and generation outcome. -/
theorem C6_text_only_no_temp_file (st : ModelState) (req : GenerateRequest)
    (w : World) (fs : FS) (hv : req.video_url = none) :
    createdPaths (generate st req w fs).2.2 = [] ∧
    downloadAttempts (generate st req w fs).2.2 = [] ∧
    (generate st req w fs).2.1 = fs := by
  rcases st with ⟨mo, po⟩
  rcases w with ⟨net, tmp, gen⟩
  cases mo <;> cases po <;> cases gen <;>
    simp [generate, hv, createdPaths, downloadAttempts]

/-- Witness for C6 at a concrete text-only request. -/
theorem C6_text_only_no_temp_file_witness :
    createdPaths (generate loadedState { instruction := "Describe this." } wTextOk []).2.2 = [] ∧
    downloadAttempts (generate loadedState { instruction := "Describe this." } wTextOk []).2.2 = [] ∧
    (generate loadedState { instruction := "Describe this." } wTextOk []).2.1 = [] :=
  C6_text_only_no_temp_file loadedState { instruction := "Describe this." } wTextOk [] rfl

end Tarsier

namespace Tarsier

/-- C2 (amended): for every video request against a loaded session whose
download succeeds with nonempty content, the single generation call
receives the prompt formed by removing every literal `<image>` marker,
then every literal `<video>` marker, from the instruction and prepending
the fixed `<video>` line; for the instruction `<video>\nWhat happens?`
this prompt is `<video>\n\nWhat happens?`, the removed marker leaving its
trailing newline behind. -/
theorem C2_video_prompt_normalization :
    (∀ (st : ModelState) (req : GenerateRequest) (w : World)
       (m : Model) (p : Processor) (url : String) (chunks : List Nat),
       st.model = some m → st.processor = some p →
       req.video_url = some url → w.net = .ok chunks → chunks.sum ≠ 0 →
       genCalls (generate st req w []).2.2 =
         [("<video>\n" ++ pyRemove (pyRemove req.instruction "<image>") "<video>",
           some w.tmpName,
           { do_sample := req.do_sample, max_new_tokens := req.max_new_tokens,
             top_p := req.top_p, temperature := req.temperature, use_cache := true })]) ∧
    "<video>\n" ++ pyRemove (pyRemove "<video>\nWhat happens?" "<image>") "<video>" =
      "<video>\n\nWhat happens?" := by
  constructor
  · intro st req w m p url chunks hm hp hv hn hs
    rcases st with ⟨mo, po⟩
    rcases w with ⟨net, tmp, gen⟩
    simp only at hm hp hn
    subst hm hp hn
    cases gen <;>
      simp [generate, download_video, hv, hs, videoPrompt, genCalls,
        fsContains, getsize, List.find?]
  · decide

/-- Witness for C2 at the scenario request. -/
theorem C2_video_prompt_normalization_witness :
    genCalls (generate loadedState reqVidMarked wOk []).2.2 =
      [("<video>\n" ++ pyRemove (pyRemove "<video>\nWhat happens?" "<image>") "<video>",
        some "/tmp/tmpabc123.mp4",
        { do_sample := false, max_new_tokens := 512, top_p := 1,
          temperature := 0, use_cache := true })] :=
  C2_video_prompt_normalization.1 loadedState reqVidMarked wOk cudaModel proc
    "http://x/y.mp4" [3, 4] rfl rfl rfl rfl (by decide)

/-- C3 (amended): for every video request against a loaded session for
which the Video Fetcher returns a path, exactly one temporary file is
created, its deletion appears in the trace on every exit path (empty
file, generation failure, or success), and the file no longer exists once
the response is produced. -/
theorem C3_cleanup_when_path_returned (st : ModelState) (req : GenerateRequest)
    (w : World) (m : Model) (p : Processor) (url : String) (chunks : List Nat)
    (hm : st.model = some m) (hp : st.processor = some p)
    (hv : req.video_url = some url) (hn : w.net = .ok chunks) :
    createdPaths (generate st req w []).2.2 = [w.tmpName] ∧
    deletedPaths (generate st req w []).2.2 = [w.tmpName] ∧
    fsContains (generate st req w []).2.1 w.tmpName = false := by
  rcases st with ⟨mo, po⟩
  rcases w with ⟨net, tmp, gen⟩
  simp only at hm hp hn
  subst hm hp hn
  by_cases hz : chunks.sum = 0
  · simp [generate, download_video, hv, hz, createdPaths, deletedPaths,
      fsContains, getsize, List.find?, unlink]
  · cases gen <;>
      simp [generate, download_video, hv, hz, createdPaths, deletedPaths,
        fsContains, getsize, List.find?, unlink]

/-- Witness for C3 at a concrete successful download. -/
theorem C3_cleanup_when_path_returned_witness :
    createdPaths (generate loadedState reqVid wOk []).2.2 = ["/tmp/tmpabc123.mp4"] ∧
    deletedPaths (generate loadedState reqVid wOk []).2.2 = ["/tmp/tmpabc123.mp4"] ∧
    fsContains (generate loadedState reqVid wOk []).2.1 "/tmp/tmpabc123.mp4" = false :=
  C3_cleanup_when_path_returned loadedState reqVid wOk cudaModel proc
    "http://x/y.mp4" [3, 4] rfl rfl rfl rfl

/-- C10: when the download raises before a path is returned, no deletion
is attempted: the trace of the request contains no `fileDeleted` effect,
whatever the session state. -/
theorem C10_no_unlink_without_path (st : ModelState) (req : GenerateRequest)
    (w : World) (fs : FS) (url : String) (e : Exn)
    (hv : req.video_url = some url)
    (hd : (download_video w.net w.tmpName fs).1 = .error e) :
    deletedPaths (generate st req w fs).2.2 = [] := by
  rcases st with ⟨mo, po⟩
  rcases w with ⟨net, tmp, gen⟩
  cases net with
  | ok chunks => simp [download_video] at hd
  | connError m =>
      cases mo <;> cases po <;> simp [generate, download_video, hv, deletedPaths]
  | httpError c m =>
      cases mo <;> cases po <;> simp [generate, download_video, hv, deletedPaths]
  | streamError wr m =>
      cases mo <;> cases po <;> simp [generate, download_video, hv, deletedPaths]

/-- Witness for C10 at the 404 world. -/
theorem C10_no_unlink_without_path_witness :
    deletedPaths (generate loadedState reqVid w404 []).2.2 = [] :=
  C10_no_unlink_without_path loadedState reqVid w404 []
    "http://x/y.mp4"
    (.http 400 "Failed to download video: 404 Client Error: Not Found for url: http://x/y.mp4")
    rfl rfl

end Tarsier

namespace Tarsier

/-- C7: every generation call performed by the handler receives exactly
the kwargs record assembled from the request plus `use_cache = true`, and
a request body carrying only an instruction takes the pydantic defaults
`max_new_tokens = 512`, `do_sample = false`, `temperature = 0`,
`top_p = 1`. -/
theorem C7_generate_kwargs_assembly :
    (∀ (st : ModelState) (req : GenerateRequest) (w : World) (fs : FS)
       (pr : String) (vf : Option String) (kw : GenerateKwargs),
       (pr, vf, kw) ∈ genCalls (generate st req w fs).2.2 →
       kw = { do_sample := req.do_sample, max_new_tokens := req.max_new_tokens,
              top_p := req.top_p, temperature := req.temperature, use_cache := true }) ∧
    (∀ i : String, ({ instruction := i } : GenerateRequest) =
       { instruction := i, max_new_tokens := 512, do_sample := false,
         temperature := 0, top_p := 1, video_url := none }) := by
  constructor
  · intro st req w fs pr vf kw hmem
    rcases st with ⟨mo, po⟩
    rcases w with ⟨net, tmp, gen⟩
    cases mo with
    | none => simp [generate, genCalls] at hmem
    | some m =>
    cases po with
    | none => simp [generate, genCalls] at hmem
    | some p =>
    rcases hvu : req.video_url with _ | url
    · cases gen <;> simp [generate, genCalls, hvu] at hmem <;> simp [hmem.2.2]
    · cases net with
      | connError msg => simp [generate, download_video, genCalls, hvu] at hmem
      | httpError c msg => simp [generate, download_video, genCalls, hvu] at hmem
      | streamError wr msg => simp [generate, download_video, genCalls, hvu] at hmem
      | ok chunks =>
          by_cases h1 : fsContains (fs ++ [(tmp, chunks.sum)]) tmp
          · by_cases h2 : getsize (fs ++ [(tmp, chunks.sum)]) tmp = 0
            · simp [generate, download_video, genCalls, hvu, h1, h2] at hmem
            · cases gen <;>
                simp [generate, download_video, genCalls, hvu, h1, h2] at hmem <;>
                simp [hmem.2.2]
          · simp [generate, download_video, genCalls, hvu, h1] at hmem
  · intro i
    rfl

/-- Witness for C7: the kwargs of the one generation call of a concrete
text-only request equal the record assembled from the default fields. -/
theorem C7_generate_kwargs_assembly_witness :
    (("Describe this.", (none : Option String),
       ({ do_sample := false, max_new_tokens := 512, top_p := 1,
          temperature := 0, use_cache := true } : GenerateKwargs)) ∈
      genCalls (generate loadedState { instruction := "Describe this." } wTextOk []).2.2) ∧
    ({ do_sample := false, max_new_tokens := 512, top_p := 1,
       temperature := 0, use_cache := true } : GenerateKwargs) =
      { do_sample := false, max_new_tokens := 512, top_p := 1,
        temperature := 0, use_cache := true } :=
  ⟨by decide,
   C7_generate_kwargs_assembly.1 loadedState { instruction := "Describe this." }
     wTextOk [] "Describe this." none
     { do_sample := false, max_new_tokens := 512, top_p := 1,
       temperature := 0, use_cache := true }
     (by decide)⟩

end Tarsier
